import Mathlib

/-!
Verification of the booking-marketplace core (role store, access policies,
listing registry, booking lifecycle) of the travel-trekker-nexus repository.

The definitions below are a shallow embedding of the source:
* the SQL schema, policies and functions embedded at the end of
  `src/pages/ListingDetail.tsx` (enums, `get_user_role`, `has_role`,
  the row-level policies, `handle_new_user`);
* the client operations `calculateTotalPrice` / `handleBooking`
  (`src/pages/ListingDetail.tsx`), `handleSubmit` of
  `src/pages/CreateListing.tsx` (with its component role gate),
  `fetchListings` of `src/pages/Home.tsx`, and `handleBookingAction`
  of the dashboard page.

Principals are opaque identifiers, modelled as naturals.  Dates are
modelled as the millisecond values JavaScript assigns them: a calendar
date string parses to UTC midnight, i.e. (days since 1970-01-01) * 86400000.
Decimal prices are modelled as rationals.
-/

/-- The `app_role` enum of the schema: `admin`, `subadmin`, `user`. -/
inductive Role where
  | admin
  | subadmin
  | user
deriving DecidableEq, Repr

/-- The priority rank of a role, exactly the CASE expression of the SQL
function `get_user_role` (admin has rank 1, subadmin 2, user 3).  Lower
rank is higher priority. -/
def roleRank : Role → Nat
  | .admin => 1
  | .subadmin => 2
  | .user => 3

/-- ORDER BY rank LIMIT 1 over a bag of roles: the role of minimal rank,
`none` when the bag is empty (the SQL query returns no row, so the
scalar function returns NULL). -/
def minRole : List Role → Option Role
  | [] => none
  | r :: rs =>
    match minRole rs with
    | none => some r
    | some a => if roleRank a < roleRank r then some a else some r

/-- The `user_roles` table, restricted to its (user_id, role) columns:
the only columns the schema constrains (UNIQUE on (user_id, role)) and
the only ones the policies and functions consult. -/
abbrev RoleAssignments := List (Nat × Role)

/-- The roles assigned to one principal: the WHERE user_id filter of
`get_user_role` and `has_role`. -/
def rolesOf (asg : RoleAssignments) (uid : Nat) : List Role :=
  (asg.filter (fun p => decide (p.1 = uid))).map (fun p => p.2)

/-- The SQL function `get_user_role`: the assigned role of minimal rank,
NULL (here `none`) when the principal has no `user_roles` row. -/
def get_user_role (asg : RoleAssignments) (uid : Nat) : Option Role :=
  minRole (rolesOf asg uid)

/-- The SQL function `has_role`: whether a (user_id, role) row exists. -/
def has_role (asg : RoleAssignments) (uid : Nat) (r : Role) : Bool :=
  asg.any (fun p => decide (p.1 = uid ∧ p.2 = r))

/-- The `listing_type` enum of the schema. -/
inductive LType where
  | hotel
  | trip
  | car
deriving DecidableEq, Repr

/-- The `booking_status` enum of the schema. -/
inductive BStatus where
  | pending
  | accepted
  | rejected
deriving DecidableEq, Repr

/-- The error outcomes the client operations can surface.
`PermissionDenied` is the Access Denied page of the role-gated
components, `ValidationError` the required-fields toast of
`handleSubmit`, `SignInRequired` and `MissingDates` the two guard
toasts of `handleBooking`, and `UniqueViolation` the rejection of an
INSERT by a UNIQUE constraint. -/
inductive Err where
  | PermissionDenied
  | ValidationError
  | SignInRequired
  | MissingDates
  | UniqueViolation
deriving DecidableEq, Repr

/-- A row of the `listings` table.  `created_at` is the server-assigned
creation timestamp used by ORDER BY created_at DESC. -/
structure Listing where
  id : Nat
  owner_id : Nat
  type : LType
  title : String
  description : Option String
  price : Rat
  location : String
  image_url : Option String
  amenities : Option (List String)
  available_from : Option Int
  available_to : Option Int
  max_guests : Option Nat
  is_active : Bool
  created_at : Nat
deriving DecidableEq, Repr

/-- A row of the `bookings` table. -/
structure Booking where
  id : Nat
  user_id : Nat
  listing_id : Nat
  check_in : Int
  check_out : Int
  guests : Int
  total_price : Rat
  status : BStatus
  special_requests : Option String
  admin_notes : Option String
  created_at : Nat
deriving DecidableEq, Repr

/-- Milliseconds per day, the 1000 * 60 * 60 * 24 divisor of
`calculateTotalPrice`. -/
def msPerDay : Nat := 1000 * 60 * 60 * 24

/-- `calculateTotalPrice` of `src/pages/ListingDetail.tsx` on its
non-degenerate branch (listing and both dates present): the absolute
millisecond difference of the two parsed dates, divided by a day and
rounded up, times the listing price.  Math.abs is `Int.natAbs`;
Math.ceil of the exact division is ceiling division on naturals. -/
def calculateTotalPrice (price : Rat) (checkInMs checkOutMs : Int) : Rat :=
  let diffTime : Nat := (checkOutMs - checkInMs).natAbs
  let diffDays : Nat := (diffTime + (msPerDay - 1)) / msPerDay
  (diffDays : Rat) * price

/-- The millisecond value of a calendar day number (days since
1970-01-01): JavaScript parses a plain date string to UTC midnight. -/
def dayMs (d : Nat) : Int := (d : Int) * (msPerDay : Int)

/-- Days since 1970-01-01 of a Gregorian calendar date (civil-from-days
algorithm, valid for years from 1 on).  A JavaScript Date parsed from a
plain y-m-d string holds this value times `msPerDay`. -/
def epochDay (y m d : Nat) : Int :=
  let y2 := if m ≤ 2 then y - 1 else y
  let era := y2 / 400
  let yoe := y2 % 400
  let mp := (m + 9) % 12
  let doy := (153 * mp + 2) / 5 + d - 1
  let doe := yoe * 365 + yoe / 4 - yoe / 100 + doy
  (era * 146097 + doe : Int) - 719468

/-- Millisecond timestamp of a calendar date, as JavaScript parses it. -/
def msOfDate (y m d : Nat) : Int := epochDay y m d * (msPerDay : Int)

/-- The booking row `handleBooking` inserts: requester, listing, the two
dates, the guest count as entered, the computed total price, the
special-requests text or NULL, and the column defaults (status pending,
admin_notes NULL); `id` and `created_at` are server-assigned. -/
def mkBooking (uid : Nat) (l : Listing) (ci co : Int) (guests : Int)
    (sr : String) (fid now : Nat) : Booking :=
  { id := fid
    user_id := uid
    listing_id := l.id
    check_in := ci
    check_out := co
    guests := guests
    total_price := calculateTotalPrice l.price ci co
    status := BStatus.pending
    special_requests := if sr = "" then none else some sr
    admin_notes := none
    created_at := now }

/-- `handleBooking` of `src/pages/ListingDetail.tsx`: errors if no
signed-in user or no loaded listing, errors if either date is
unselected, otherwise computes the total price and inserts the row.  No
guest-count check and no date-order check occur.  Returns the error (if
any) and the resulting `bookings` table. -/
def handleBooking (user : Option Nat) (listing : Option Listing)
    (checkIn checkOut : Option Int) (guests : Int) (specialRequests : String)
    (fid now : Nat) (db : List Booking) : Option Err × List Booking :=
  match user, listing with
  | some uid, some l =>
    match checkIn, checkOut with
    | some ci, some co =>
      (none, db ++ [mkBooking uid l ci co guests specialRequests fid now])
    | _, _ => (some Err.MissingDates, db)
  | _, _ => (some Err.SignInRequired, db)

/-- The policy-relevant database state: role assignments, listings and
bookings tables. -/
structure DB where
  roles : RoleAssignments
  listings : List Listing
  bookings : List Booking
deriving DecidableEq, Repr

/-- The row-level UPDATE predicate on `bookings`: the union of the two
policies "Listing owners can update bookings for their listings"
(EXISTS a listing row with the listing_id of the booking owned by the
caller) and "Admins can update all bookings" (`has_role` with admin). -/
def canUpdateBooking (db : DB) (uid : Nat) (b : Booking) : Bool :=
  db.listings.any (fun l => decide (l.id = b.listing_id ∧ l.owner_id = uid))
    || has_role db.roles uid Role.admin

/-- The decision values `handleBookingAction` accepts (its status
argument is typed accepted-or-rejected). -/
inductive Decision where
  | accepted
  | rejected
deriving DecidableEq, Repr

/-- The booking status a decision writes. -/
def decisionStatus : Decision → BStatus
  | .accepted => BStatus.accepted
  | .rejected => BStatus.rejected

/-- The effect of the UPDATE on one `bookings` row: rows whose id
matches the requested bookingId and which pass the row-level UPDATE
predicate get the new status; every other row is left untouched.  No
condition on the current status exists. -/
def decideRow (db : DB) (actor bookingId : Nat) (s : BStatus) (b : Booking) : Booking :=
  if b.id = bookingId ∧ canUpdateBooking db actor b = true
  then { b with status := s } else b

/-- `handleBookingAction` of the dashboard page: an UPDATE of the status
column filtered only by booking id, under the row-level policies.  The
call surfaces no error whether or not any row was updated. -/
def handleBookingAction (db : DB) (actor bookingId : Nat) (d : Decision) : DB :=
  { db with bookings := db.bookings.map (decideRow db actor bookingId (decisionStatus d)) }

/-- A concrete active hotel listing used to instantiate booking claims:
price 100, capacity 2 guests, owned by principal 7. -/
def hotelTwoGuests : Listing :=
  { id := 1
    owner_id := 7
    type := LType.hotel
    title := "Sea View"
    description := none
    price := 100
    location := "Coast"
    image_url := none
    amenities := none
    available_from := none
    available_to := none
    max_guests := some 2
    is_active := true
    created_at := 3 }

/-- A booking of listing 1 requested by principal 3, already accepted. -/
def acceptedBooking : Booking :=
  { id := 2
    user_id := 3
    listing_id := 1
    check_in := 0
    check_out := 172800000
    guests := 1
    total_price := 200
    status := BStatus.accepted
    special_requests := none
    admin_notes := none
    created_at := 5 }

/-- A one-listing, one-booking state: listing 1 is owned by principal 7,
booking 2 on it was requested by principal 3 and already accepted. -/
def acceptedBookingDB : DB :=
  { roles := []
    listings := [hotelTwoGuests]
    bookings := [acceptedBooking] }

/-- The ORDER BY created_at DESC order used by `fetchListings`: a row
comes before another when its creation time is no older. -/
def listingNewestFirst : Listing → Listing → Prop :=
  fun a b => b.created_at ≤ a.created_at

instance : DecidableRel listingNewestFirst :=
  fun a b => Nat.decLe b.created_at a.created_at

instance : IsTotal Listing listingNewestFirst :=
  ⟨fun a b => Nat.le_total b.created_at a.created_at⟩

instance : IsTrans Listing listingNewestFirst :=
  ⟨fun _ _ _ hab hbc => Nat.le_trans hbc hab⟩

/-- `fetchListings` of `src/pages/Home.tsx`: select from `listings`
where `is_active = true`, ordered by `created_at` descending (newest
first). -/
def fetchListings (db : List Listing) : List Listing :=
  List.insertionSort listingNewestFirst (db.filter (fun l => l.is_active))

/-- The row-level SELECT predicate on `listings`: the union of the
policies "Anyone can view active listings" (`is_active = true`),
"Owners can manage their listings" (caller is the owner; FOR ALL, so it
also grants SELECT) and "Admins can manage all listings". -/
def canReadListing (roles : RoleAssignments) (uid : Nat) (l : Listing) : Bool :=
  l.is_active || decide (l.owner_id = uid) || has_role roles uid Role.admin

/-- An inactive listing owned by principal 7, used to instantiate the
visibility claims. -/
def inactiveListing : Listing :=
  { hotelTwoGuests with id := 4, owner_id := 7, is_active := false, created_at := 8 }

/-- The `CreateListing` form state: the text inputs hold strings (empty
when not filled in), the selects/numeric/date inputs are modelled by
their parsed value, `none` when empty, and `amenities` is the tag list
(initially empty). -/
structure ListingForm where
  type : Option LType
  title : String
  description : String
  location : String
  price : Option Rat
  image_url : String
  max_guests : Option Nat
  available_from : Option Int
  available_to : Option Int
  amenities : List String
deriving DecidableEq, Repr

/-- The or-null normalization of `handleSubmit`: an empty string is sent
as NULL. -/
def strOpt (s : String) : Option String :=
  if s = "" then none else some s

/-- The `listingData` record `handleSubmit` inserts: empty optional text
fields and an empty amenities list become NULL, the owner is the
signed-in user, `is_active = true`; `id` and `created_at` are
server-assigned. -/
def mkListing (uid : Nat) (form : ListingForm) (t : LType) (p : Rat)
    (fid now : Nat) : Listing :=
  { id := fid
    owner_id := uid
    type := t
    title := form.title
    description := strOpt form.description
    price := p
    location := form.location
    image_url := strOpt form.image_url
    amenities := if form.amenities = [] then none else some form.amenities
    available_from := form.available_from
    available_to := form.available_to
    max_guests := form.max_guests
    is_active := true
    created_at := now }

/-- The `CreateListing` flow: the component renders Access Denied unless
a user is signed in and `userRole` is admin or subadmin (so
`handleSubmit` is unreachable); `handleSubmit` then rejects a missing
type, title, location or price and otherwise inserts the listing row.
Returns the error (if any) and the resulting `listings` table. -/
def createListing (user : Option Nat) (role : Option Role) (form : ListingForm)
    (fid now : Nat) (db : List Listing) : Option Err × List Listing :=
  match user with
  | none => (some Err.PermissionDenied, db)
  | some uid =>
    if role = some Role.admin ∨ role = some Role.subadmin then
      match form.type, form.price with
      | some t, some p =>
        if form.title = "" ∨ form.location = "" then (some Err.ValidationError, db)
        else (none, db ++ [mkListing uid form t p fid now])
      | _, _ => (some Err.ValidationError, db)
    else (some Err.PermissionDenied, db)

/-- A fully-filled listing form with one amenity tag. -/
def filledForm : ListingForm :=
  { type := some LType.trip
    title := "Island Hop"
    description := "Three islands"
    location := "Palawan"
    price := some 250
    image_url := ""
    max_guests := some 8
    available_from := some 19700
    available_to := some 19800
    amenities := ["guide"] }

/-- A valid listing form whose amenities list is empty. -/
def emptyAmenitiesForm : ListingForm :=
  { filledForm with amenities := [] }

/-- An INSERT into `user_roles` under the UNIQUE (user_id, role)
constraint: a duplicate pair is rejected with a uniqueness violation
and leaves the table unchanged; otherwise the row is appended. -/
def insertUserRole (uid : Nat) (r : Role) (asg : RoleAssignments) :
    Option Err × RoleAssignments :=
  if (uid, r) ∈ asg then (some Err.UniqueViolation, asg)
  else (none, asg ++ [(uid, r)])

/-- The role half of the `handle_new_user` trigger: an unconditional
INSERT of (NEW.id, user) into `user_roles` — no ON CONFLICT clause.
(The trigger also inserts a `profiles` row, which the role-store claims
do not touch.) -/
def handle_new_user (uid : Nat) (asg : RoleAssignments) :
    Option Err × RoleAssignments :=
  insertUserRole uid Role.user asg

theorem minRole_mem : ∀ {rs : List Role} {r : Role}, minRole rs = some r → r ∈ rs := by
  intro rs
  induction rs with
  | nil => intro r h; simp [minRole] at h
  | cons x xs ih =>
    intro r h
    simp only [minRole] at h
    cases hx : minRole xs with
    | none => rw [hx] at h; simp at h; simp [h]
    | some a =>
      rw [hx] at h
      by_cases hlt : roleRank a < roleRank x
      · simp [hlt] at h
        subst h
        exact List.mem_cons_of_mem _ (ih hx)
      · simp [hlt] at h
        simp [h]

theorem minRole_eq_none : ∀ {rs : List Role}, minRole rs = none → rs = [] := by
  intro rs h
  cases rs with
  | nil => rfl
  | cons x xs =>
    simp only [minRole] at h
    cases hx : minRole xs with
    | none => rw [hx] at h; simp at h
    | some a =>
      rw [hx] at h
      by_cases hlt : roleRank a < roleRank x <;> simp [hlt] at h

theorem minRole_min : ∀ {rs : List Role} {r : Role}, minRole rs = some r →
    ∀ x ∈ rs, roleRank r ≤ roleRank x := by
  intro rs
  induction rs with
  | nil => intro r h; simp [minRole] at h
  | cons y ys ih =>
    intro r h x hx
    simp only [minRole] at h
    cases hy : minRole ys with
    | none =>
      rw [hy] at h; simp at h; subst h
      have : ys = [] := minRole_eq_none hy
      subst this
      rcases List.mem_cons.mp hx with h1 | h1
      · subst h1; exact Nat.le_refl _
      · simp at h1
    | some a =>
      rw [hy] at h
      by_cases hlt : roleRank a < roleRank y
      · simp [hlt] at h; subst h
        rcases List.mem_cons.mp hx with h1 | h1
        · subst h1; exact Nat.le_of_lt hlt
        · exact ih hy x h1
      · simp [hlt] at h; subst h
        rcases List.mem_cons.mp hx with h1 | h1
        · subst h1; exact Nat.le_refl _
        · exact Nat.le_trans (Nat.le_of_not_lt hlt) (ih hy x h1)

theorem minRole_isSome : ∀ {rs : List Role}, rs ≠ [] → ∃ r, minRole rs = some r := by
  intro rs h
  cases rs with
  | nil => exact absurd rfl h
  | cons x xs =>
    simp only [minRole]
    cases hx : minRole xs with
    | none => exact ⟨x, rfl⟩
    | some a =>
      by_cases hlt : roleRank a < roleRank x
      · exact ⟨a, by simp [hlt]⟩
      · exact ⟨x, by simp [hlt]⟩

theorem roleRank_le_one {r : Role} (h : roleRank r ≤ 1) : r = Role.admin := by
  cases r <;> simp [roleRank] at h ⊢

theorem minRole_admin {rs : List Role} :
    minRole rs = some Role.admin ↔ Role.admin ∈ rs := by
  constructor
  · exact minRole_mem
  · intro hmem
    have hne : rs ≠ [] := by intro h; subst h; simp at hmem
    obtain ⟨r, hr⟩ := minRole_isSome hne
    have := minRole_min hr Role.admin hmem
    have : r = Role.admin := roleRank_le_one this
    subst this; exact hr

theorem has_role_iff {asg : RoleAssignments} {uid : Nat} {r : Role} :
    has_role asg uid r = true ↔ (uid, r) ∈ asg := by
  simp only [has_role, List.any_eq_true, decide_eq_true_eq]
  constructor
  · rintro ⟨p, hp, h1, h2⟩
    have : p = (uid, r) := Prod.ext h1 h2
    exact this ▸ hp
  · intro h; exact ⟨(uid, r), h, rfl, rfl⟩

theorem mem_rolesOf {asg : RoleAssignments} {uid : Nat} {r : Role} :
    r ∈ rolesOf asg uid ↔ (uid, r) ∈ asg := by
  simp only [rolesOf, List.mem_map, List.mem_filter, decide_eq_true_eq]
  constructor
  · rintro ⟨p, ⟨hp, h1⟩, h2⟩
    have : p = (uid, r) := Prod.ext h1 h2
    exact this ▸ hp
  · intro h; exact ⟨(uid, r), ⟨h, rfl⟩, rfl⟩

theorem get_user_role_admin {asg : RoleAssignments} {uid : Nat} :
    get_user_role asg uid = some Role.admin ↔ has_role asg uid Role.admin = true := by
  rw [get_user_role, minRole_admin, mem_rolesOf, has_role_iff]

/-- Claim C4 (amended): `get_user_role` returns the highest-priority
(minimal-rank) role among the assignments of the principal under the
fixed order admin > subadmin > user, and returns NULL — not `user` —
when the principal has no role assignment at all. -/
theorem effectiveRole_is_min_rank (asg : RoleAssignments) (uid : Nat) :
    (rolesOf asg uid = [] → get_user_role asg uid = none)
    ∧ (∀ r, get_user_role asg uid = some r →
        r ∈ rolesOf asg uid ∧ ∀ x ∈ rolesOf asg uid, roleRank r ≤ roleRank x)
    ∧ (rolesOf asg uid ≠ [] → ∃ r, get_user_role asg uid = some r) := by
  refine ⟨?_, ?_, ?_⟩
  · intro h; simp [get_user_role, h, minRole]
  · intro r h; exact ⟨minRole_mem h, minRole_min h⟩
  · intro h; exact minRole_isSome h

/-- Claim C4, counterexample: a principal with no role assignment gets
NULL from `get_user_role`, not `user` as the claim states. -/
theorem effectiveRole_empty_not_user :
    get_user_role [] 0 = none ∧ get_user_role [] 0 ≠ some Role.user := by
  refine ⟨rfl, by decide⟩

/-- Witness for the amended C4 theorem: assignments {subadmin, user} of
principal 1 yield subadmin, which is an assigned role whose rank is at
most the rank of the also-assigned user role. -/
theorem effectiveRole_is_min_rank_witness :
    Role.subadmin ∈ rolesOf [(1, Role.subadmin), (1, Role.user)] 1
    ∧ roleRank Role.subadmin ≤ roleRank Role.user :=
  ⟨((effectiveRole_is_min_rank [(1, Role.subadmin), (1, Role.user)] 1).2.1
      Role.subadmin (by decide)).1,
   ((effectiveRole_is_min_rank [(1, Role.subadmin), (1, Role.user)] 1).2.1
      Role.subadmin (by decide)).2 Role.user (by decide)⟩

/-- Claim C5: for a booking over whole calendar days with check-in no
later than check-out, the computed total equals the day difference times
the listing price, whatever the listing (hence whatever its type). -/
theorem totalPrice_day_granularity (l : Listing) (d1 d2 : Nat) (h : d1 ≤ d2) :
    calculateTotalPrice l.price (dayMs d1) (dayMs d2) = ((d2 - d1 : Nat) : Rat) * l.price := by
  have hk : dayMs d2 - dayMs d1 = ((d2 - d1 : Nat) : Int) * (msPerDay : Int) := by
    simp only [dayMs]
    rw [← Int.sub_mul]
    congr 1
    omega
  simp only [calculateTotalPrice, hk]
  congr 2
  have habs : (((d2 - d1 : Nat) : Int) * (msPerDay : Int)).natAbs = (d2 - d1) * msPerDay := by
    rw [Int.natAbs_mul]
    simp
  rw [habs]
  have hpos : 0 < msPerDay := by decide
  have : (d2 - d1) * msPerDay + (msPerDay - 1) = (msPerDay - 1) + msPerDay * (d2 - d1) := by
    ring
  rw [this, Nat.add_mul_div_left _ _ hpos, Nat.div_eq_of_lt (by omega)]
  exact Nat.zero_add _

/-- Witness for C5: check-in 2024-01-01, check-out 2024-01-03 at price
100 yields a total of 200 (two billed days). -/
theorem totalPrice_day_granularity_witness :
    calculateTotalPrice hotelTwoGuests.price (msOfDate 2024 1 1) (msOfDate 2024 1 3) = 200 := by
  have hd1 : msOfDate 2024 1 1 = dayMs 19723 := by decide
  have hd3 : msOfDate 2024 1 3 = dayMs 19725 := by decide
  have h := totalPrice_day_granularity hotelTwoGuests 19723 19725 (by omega)
  rw [hd1, hd3, h]
  norm_num [hotelTwoGuests]

/-- Claim C10: the computed total price is unchanged when the two dates
are swapped (Math.abs), it is non-negative whenever the listing price
is, and a check-out strictly earlier than the check-in is not rejected:
`handleBooking` still inserts the row, billed as if the dates were in
order. -/
theorem totalPrice_swap_invariant (price : Rat) (a b : Int) (uid : Nat)
    (l : Listing) (g : Int) (sr : String) (fid now : Nat) (db : List Booking) :
    calculateTotalPrice price a b = calculateTotalPrice price b a
    ∧ (0 ≤ price → 0 ≤ calculateTotalPrice price a b)
    ∧ (b < a →
        handleBooking (some uid) (some l) (some a) (some b) g sr fid now db
          = (none, db ++ [mkBooking uid l a b g sr fid now])
        ∧ (mkBooking uid l a b g sr fid now).total_price
          = calculateTotalPrice l.price b a) := by
  have habs : ∀ x y : Int, (y - x).natAbs = (x - y).natAbs := by intro x y; omega
  refine ⟨?_, ?_, ?_⟩
  · simp only [calculateTotalPrice]
    rw [habs a b]
  · intro hp
    exact mul_nonneg (by positivity) hp
  · intro _
    refine ⟨rfl, ?_⟩
    show calculateTotalPrice l.price a b = calculateTotalPrice l.price b a
    simp only [calculateTotalPrice]
    rw [habs a b]

/-- Witness for C10 at concrete input: swapping 1970-01-03 and
1970-01-01 leaves the total unchanged, the total is non-negative, and
the out-of-order submission is inserted rather than rejected. -/
theorem totalPrice_swap_invariant_witness :
    calculateTotalPrice 100 172800000 0 = calculateTotalPrice 100 0 172800000
    ∧ 0 ≤ calculateTotalPrice 100 172800000 0
    ∧ handleBooking (some 3) (some hotelTwoGuests) (some 172800000) (some 0) 1 "" 9 50 []
        = (none, [mkBooking 3 hotelTwoGuests 172800000 0 1 "" 9 50]) :=
  ⟨(totalPrice_swap_invariant 100 172800000 0 3 hotelTwoGuests 1 "" 9 50 []).1,
   (totalPrice_swap_invariant 100 172800000 0 3 hotelTwoGuests 1 "" 9 50 []).2.1 (by norm_num),
   ((totalPrice_swap_invariant 100 172800000 0 3 hotelTwoGuests 1 "" 9 50 []).2.2 (by decide)).1⟩

/-- Claim C3 (code bug, evaluation at the failing input): submitting
guests = 5 against a listing with max_guests = 2 does not fail —
`handleBooking` performs no guest-count validation, returns no error
and persists the booking row with guests = 5. -/
theorem submit_overbooked_guests_persists :
    hotelTwoGuests.max_guests = some 2
    ∧ (handleBooking (some 3) (some hotelTwoGuests) (some 0) (some 172800000) 5 "" 9 50 []).1 = none
    ∧ (handleBooking (some 3) (some hotelTwoGuests) (some 0) (some 172800000) 5 "" 9 50 []).2.map
        Booking.guests = [5] := by
  refine ⟨rfl, rfl, rfl⟩

/-- Claim C1 (code bug, evaluation at the failing input): the decide
call of the listing owner on an already-accepted booking does not fail
with InvalidTransition — it succeeds and overwrites the terminal
status.  The update carries no condition on the current status and no
error path, so the accepted booking becomes rejected. -/
theorem decide_on_terminal_overwrites :
    acceptedBookingDB.bookings.map Booking.status = [BStatus.accepted]
    ∧ (handleBookingAction acceptedBookingDB 7 2 Decision.rejected).bookings.map
        Booking.status = [BStatus.rejected] := by
  refine ⟨rfl, by decide⟩

/-- Claim C6 (amended): the row-level policies permit a status update
exactly when the caller owns the listing of the booking or holds the
admin role (equivalently, their effective role is admin); a caller who
is neither cannot change any row — but nothing stops a requester who
happens to be the listing owner or an admin. -/
theorem bookingUpdate_owner_or_admin (db : DB) (uid : Nat) (b : Booking) :
    (canUpdateBooking db uid b = true ↔
      ((∃ l ∈ db.listings, l.id = b.listing_id ∧ l.owner_id = uid)
        ∨ get_user_role db.roles uid = some Role.admin))
    ∧ (canUpdateBooking db uid b = false →
        ∀ bid s, decideRow db uid bid s b = b) := by
  constructor
  · rw [get_user_role_admin]
    simp only [canUpdateBooking, Bool.or_eq_true, List.any_eq_true, decide_eq_true_eq]
  · intro hfalse bid s
    simp [decideRow, hfalse]

/-- Claim C6, counterexample: an admin who is the requester of a booking
on a listing of someone else is permitted to update it, and their
decide call does change the status — refuting the part of the claim
that the requesting principal can never change the booking status. -/
theorem requester_admin_changes_own_booking :
    acceptedBooking.user_id = 3
    ∧ canUpdateBooking { acceptedBookingDB with roles := [(3, Role.admin)] } 3
        acceptedBooking = true
    ∧ (handleBookingAction { acceptedBookingDB with roles := [(3, Role.admin)] } 3 2
        Decision.rejected).bookings.map Booking.status = [BStatus.rejected] := by
  refine ⟨rfl, by decide, by decide⟩

/-- Witness for the amended C6 theorem: principal 9 is neither the owner
of listing 1 nor an admin, so the update leaves the accepted booking
row unchanged. -/
theorem bookingUpdate_owner_or_admin_witness :
    decideRow acceptedBookingDB 9 2 BStatus.rejected acceptedBooking = acceptedBooking :=
  (bookingUpdate_owner_or_admin acceptedBookingDB 9 acceptedBooking).2
    (by decide) 2 BStatus.rejected

/-- Claim C7: `fetchListings` returns exactly the listings with
`is_active = true`, ordered newest-first by creation time; an inactive
listing never appears in it, yet the SELECT policies still let its
owner — and any principal holding the admin role — read it. -/
theorem listActive_exactly_active (db : List Listing) (roles : RoleAssignments)
    (l : Listing) (uid : Nat) :
    (l ∈ fetchListings db ↔ l ∈ db ∧ l.is_active = true)
    ∧ List.Sorted listingNewestFirst (fetchListings db)
    ∧ (l.is_active = false →
        l ∉ fetchListings db
        ∧ canReadListing roles l.owner_id l = true
        ∧ (has_role roles uid Role.admin = true → canReadListing roles uid l = true)) := by
  have hmem : l ∈ fetchListings db ↔ l ∈ db ∧ l.is_active = true := by
    rw [fetchListings, (List.perm_insertionSort listingNewestFirst _).mem_iff, List.mem_filter]
  refine ⟨hmem, List.sorted_insertionSort listingNewestFirst _, ?_⟩
  intro hinact
  refine ⟨?_, ?_, ?_⟩
  · intro hl
    rw [hmem] at hl
    rw [hinact] at hl
    exact Bool.false_ne_true hl.2
  · simp [canReadListing]
  · intro hadmin
    simp [canReadListing, hadmin]

/-- Witness for C7 at concrete input: the inactive listing is absent
from the public feed of a two-listing table, yet its owner can read it
and so can principal 5, who holds the admin role. -/
theorem listActive_exactly_active_witness :
    inactiveListing ∉ fetchListings [inactiveListing, hotelTwoGuests]
    ∧ canReadListing [(5, Role.admin)] inactiveListing.owner_id inactiveListing = true
    ∧ canReadListing [(5, Role.admin)] 5 inactiveListing = true :=
  ⟨((listActive_exactly_active [inactiveListing, hotelTwoGuests]
      [(5, Role.admin)] inactiveListing 5).2.2 rfl).1,
   ((listActive_exactly_active [inactiveListing, hotelTwoGuests]
      [(5, Role.admin)] inactiveListing 5).2.2 rfl).2.1,
   ((listActive_exactly_active [inactiveListing, hotelTwoGuests]
      [(5, Role.admin)] inactiveListing 5).2.2 rfl).2.2 (by decide)⟩

/-- Claim C2: a signed-in principal whose effective role is neither
admin nor subadmin is denied by the `CreateListing` gate: the call
fails with `PermissionDenied` and the `listings` table is unchanged. -/
theorem create_denied_for_plain_user (role : Option Role) (uid : Nat)
    (form : ListingForm) (fid now : Nat) (db : List Listing)
    (h1 : role ≠ some Role.admin) (h2 : role ≠ some Role.subadmin) :
    createListing (some uid) role form fid now db = (some Err.PermissionDenied, db) := by
  simp [createListing, h1, h2]

/-- Witness for C2: a user-role principal calling create is denied and
no row is created. -/
theorem create_denied_for_plain_user_witness :
    createListing (some 1) (some Role.user) filledForm 9 9 []
      = (some Err.PermissionDenied, []) :=
  create_denied_for_plain_user (some Role.user) 1 filledForm 9 9 []
    (by decide) (by decide)

/-- Claim C9 (amended): a listing created via the create flow and then
fetched via the active feed (while still active) reproduces the input
fields up to the create-time normalization: present fields — type,
title, location, price, max_guests, availability window — come back
unchanged, while an empty description, image URL or amenities list is
stored as NULL (notably: an empty amenities list is *not* reproduced as
an empty list); `id` and `created_at` are server-assigned. -/
theorem create_fetch_round_trip (uid : Nat) (form : ListingForm) (t : LType)
    (p : Rat) (fid now : Nat) (db : List Listing)
    (hty : form.type = some t) (hpr : form.price = some p)
    (hti : form.title ≠ "") (hlo : form.location ≠ "") :
    createListing (some uid) (some Role.subadmin) form fid now db
      = (none, db ++ [mkListing uid form t p fid now])
    ∧ mkListing uid form t p fid now ∈ fetchListings (db ++ [mkListing uid form t p fid now])
    ∧ (mkListing uid form t p fid now).type = t
    ∧ (mkListing uid form t p fid now).title = form.title
    ∧ (mkListing uid form t p fid now).location = form.location
    ∧ (mkListing uid form t p fid now).price = p
    ∧ (mkListing uid form t p fid now).max_guests = form.max_guests
    ∧ (mkListing uid form t p fid now).available_from = form.available_from
    ∧ (mkListing uid form t p fid now).available_to = form.available_to
    ∧ (mkListing uid form t p fid now).description = strOpt form.description
    ∧ (mkListing uid form t p fid now).image_url = strOpt form.image_url
    ∧ (mkListing uid form t p fid now).amenities
        = (if form.amenities = [] then none else some form.amenities)
    ∧ (mkListing uid form t p fid now).owner_id = uid
    ∧ (mkListing uid form t p fid now).is_active = true := by
  refine ⟨?_, ?_, rfl, rfl, rfl, rfl, rfl, rfl, rfl, rfl, rfl, rfl, rfl, rfl⟩
  · simp [createListing, hty, hpr, hti, hlo]
  · rw [fetchListings, (List.perm_insertionSort listingNewestFirst _).mem_iff, List.mem_filter]
    exact ⟨List.mem_append_right _ (List.mem_singleton_self _), rfl⟩

/-- Claim C9, counterexample: creating a listing from a form with an
empty amenities list and fetching it back yields amenities = NULL, not
the input empty list — the field is not reproduced unchanged. -/
theorem create_empty_amenities_not_reproduced :
    emptyAmenitiesForm.amenities = []
    ∧ (fetchListings ((createListing (some 1) (some Role.admin) emptyAmenitiesForm 10 5 []).2)).map
        Listing.amenities = [none]
    ∧ (none : Option (List String)) ≠ some emptyAmenitiesForm.amenities := by
  refine ⟨rfl, rfl, by decide⟩

/-- Witness for the amended C9 theorem: the filled form round-trips, in
particular the created listing appears in the active feed. -/
theorem create_fetch_round_trip_witness :
    createListing (some 1) (some Role.subadmin) filledForm 10 5 []
      = (none, [mkListing 1 filledForm LType.trip 250 10 5])
    ∧ mkListing 1 filledForm LType.trip 250 10 5
        ∈ fetchListings [mkListing 1 filledForm LType.trip 250 10 5] :=
  ⟨(create_fetch_round_trip 1 filledForm LType.trip 250 10 5 []
      rfl rfl (by decide) (by decide)).1,
   (create_fetch_round_trip 1 filledForm LType.trip 250 10 5 []
      rfl rfl (by decide) (by decide)).2.1⟩

/-- Claim C8 (amended): the default-role provisioning never creates a
duplicate (principal, role) pair — the table stays duplicate-free after
every invocation — but it is not idempotent in the success sense:
re-invoking it for an already-provisioned principal fails with a
uniqueness violation instead of succeeding as a no-op. -/
theorem assignDefaultRole_no_duplicates (uid : Nat) (asg : RoleAssignments)
    (hnd : asg.Nodup) :
    (handle_new_user uid asg).2.Nodup
    ∧ ((uid, Role.user) ∈ asg →
        handle_new_user uid asg = (some Err.UniqueViolation, asg))
    ∧ ((uid, Role.user) ∉ asg →
        handle_new_user uid asg = (none, asg ++ [(uid, Role.user)])) := by
  by_cases hmem : (uid, Role.user) ∈ asg
  · refine ⟨?_, fun _ => ?_, fun hab => absurd hmem hab⟩
    · simp [handle_new_user, insertUserRole, hmem, hnd]
    · simp [handle_new_user, insertUserRole, hmem]
  · refine ⟨?_, fun hab => absurd hab hmem, fun _ => ?_⟩
    · simp [handle_new_user, insertUserRole, hmem, List.nodup_append, hnd]
    · simp [handle_new_user, insertUserRole, hmem]

/-- Claim C8, counterexample: invoking the provisioning insert for a
principal that already holds the user role fails with a uniqueness
violation — it does not succeed silently as the claim states. -/
theorem assignDefaultRole_second_call_fails :
    handle_new_user 1 [(1, Role.user)] = (some Err.UniqueViolation, [(1, Role.user)])
    ∧ (handle_new_user 1 [(1, Role.user)]).1 ≠ none := by
  refine ⟨rfl, by decide⟩

/-- Witness for the amended C8 theorem: first-time provisioning of
principal 1 appends exactly one (1, user) row. -/
theorem assignDefaultRole_no_duplicates_witness :
    handle_new_user 1 [(2, Role.admin)] = (none, [(2, Role.admin), (1, Role.user)]) :=
  (assignDefaultRole_no_duplicates 1 [(2, Role.admin)] (by decide)).2.2 (by decide)
